import Mathlib

/-!
Shallow embedding of `src/xlm/UniBridgeSrc/NER/model.py` (UniBridge).

The module wraps a pretrained transformer with adapter modules.  We embed
`NERAdapterModel.__init__` as a computation in an error monad that records
every adapter-library call it performs (`load_adapter`, `add_adapter`,
`add_tagging_head`, `set_active_adapters`, `train_adapter`) as an explicit
action, mirroring Python semantics for `assert` (an `assert` on a string
raises `AssertionError` iff the string is empty) and for the use of an
unbound local variable (`UnboundLocalError`).  `forward`, `save_pretrained`
and `dummy_inputs` are embedded as pure functions of their inputs, with the
underlying library model abstracted as a function parameter.
-/

/-- The configuration record `NERAdapterConfig` (fields used by `model.py`). -/
structure NERAdapterConfig where
  model : String
  pretrained_ck : String
  lang_adapter_ckpt : String
  task_adapter_ckpt : String
  lang : String
  num_labels : Nat
  pad_token_id : Int
  use_return_dict : Bool
deriving DecidableEq, Repr

/-- Python exceptions relevant to `NERAdapterModel.__init__`. -/
inductive PyError where
  | assertionError
  | unboundLocalError
deriving DecidableEq, Repr

/-- The two base model classes the constructor can select. -/
inductive BaseModelClass where
  | bertAdapterModel
  | xlmRobertaAdapterModel
deriving DecidableEq, Repr

/-- The adapter configuration built by
`AdapterConfig.load("pfeiffer", non_linearity="gelu", reduction_factor=16, leave_out=[11])`. -/
structure TaskAdapterConfig where
  base : String
  non_linearity : String
  reduction_factor : Nat
  leave_out : List Nat
deriving DecidableEq, Repr

/-- The pfeiffer task-adapter configuration constructed in `__init__`. -/
def pfeifferTaskConfig : TaskAdapterConfig :=
  { base := "pfeiffer", non_linearity := "gelu", reduction_factor := 16, leave_out := [11] }

/-- One call into the adapter library performed by `__init__`, with its arguments. -/
inductive ModelAction where
  | loadAdapter (src : String) (load_as : String) (leave_out : List Nat)
  | addAdapter (name : String) (cfg : TaskAdapterConfig)
  | addTaggingHead (name : String) (num_labels : Nat)
  | setActiveAdapters (names : List String)
  | trainAdapter (names : List String)
deriving DecidableEq, Repr

/-- Result state of a successful `NERAdapterModel.__init__`. -/
structure InitState where
  baseClass : BaseModelClass
  pretrainedSrc : Option String
  adapter_mode : Nat
  actions : List ModelAction
deriving DecidableEq, Repr

/-- Python `assert s` for a string `s`: raises `AssertionError` iff `s` is falsy (empty). -/
def pyAssert (s : String) : Except PyError Unit :=
  if s = "" then Except.error PyError.assertionError else Except.ok ()

/-- The f-string asserted in the unknown-model branch of `__init__`. -/
def badModelMsg (model : String) : String :=
  "parameter `model` for NERAdapterModel must be either ['mbert', 'xlm-r'], " ++ model
    ++ " does not belong to that."

/-- The f-string asserted in the unknown-adapter-mode branch of `__init__`. -/
def unknownModeMsg (adapter_mode : Nat) : String :=
  "Unknown adapter mode of " ++ toString adapter_mode

/-- `f"{config.lang}_ner"`: the task-adapter name. -/
def taskName (lang : String) : String := lang ++ "_ner"

/-- The adapter-related part of `__init__` (from `adapter_mode = 0` to
`self.model.train_adapter(...)`), run after a base model class was bound. -/
def initAdapters (config : NERAdapterConfig) (bc : BaseModelClass) :
    Except PyError InitState :=
  let pretrainedSrc : Option String :=
    if config.pretrained_ck = "" then none else some config.pretrained_ck
  let md : Nat × List ModelAction :=
    if config.lang_adapter_ckpt = "" then
      (1, [])
    else
      (2, [ModelAction.loadAdapter config.lang_adapter_ckpt config.lang [11]])
  let taskActs : List ModelAction :=
    if config.task_adapter_ckpt = "" then
      [ModelAction.addAdapter (taskName config.lang) pfeifferTaskConfig,
       ModelAction.addTaggingHead (taskName config.lang) config.num_labels]
    else
      [ModelAction.loadAdapter config.task_adapter_ckpt (taskName config.lang) [11]]
  let activeStep : Except PyError (List ModelAction) :=
    if md.1 = 1 then
      Except.ok [ModelAction.setActiveAdapters [taskName config.lang]]
    else if md.1 = 2 then
      Except.ok [ModelAction.setActiveAdapters [config.lang, taskName config.lang]]
    else
      match pyAssert (unknownModeMsg md.1) with
      | Except.error e => Except.error e
      | Except.ok _ => Except.ok []
  match activeStep with
  | Except.error e => Except.error e
  | Except.ok activeActs =>
      Except.ok
        { baseClass := bc
          pretrainedSrc := pretrainedSrc
          adapter_mode := md.1
          actions := md.2 ++ taskActs ++ activeActs
            ++ [ModelAction.trainAdapter [taskName config.lang]] }

/-- Embedding of `NERAdapterModel.__init__`.  On an unrecognised model tag the
`assert` on a non-empty f-string passes and the subsequent first use of the
never-bound local `basemodel_class` raises `UnboundLocalError`. -/
def nerAdapterInit (config : NERAdapterConfig) : Except PyError InitState :=
  if config.model ∈ (["mbert", "mbert_cased"] : List String) then
    initAdapters config BaseModelClass.bertAdapterModel
  else if config.model = "xlm-r" then
    initAdapters config BaseModelClass.xlmRobertaAdapterModel
  else
    match pyAssert (badModelMsg config.model) with
    | Except.error e => Except.error e
    | Except.ok _ => Except.error PyError.unboundLocalError

/-- Sources of `load_adapter` calls whose `load_as` name is `name`. -/
def loadsAs (st : InitState) (name : String) : List String :=
  st.actions.filterMap fun a =>
    match a with
    | ModelAction.loadAdapter src nm _ => if nm = name then some src else none
    | _ => none

/-- Arguments of all `add_adapter` calls. -/
def addAdapterCalls (st : InitState) : List (String × TaskAdapterConfig) :=
  st.actions.filterMap fun a =>
    match a with
    | ModelAction.addAdapter nm cfg => some (nm, cfg)
    | _ => none

/-- Arguments of all `add_tagging_head` calls. -/
def taggingHeadCalls (st : InitState) : List (String × Nat) :=
  st.actions.filterMap fun a =>
    match a with
    | ModelAction.addTaggingHead nm k => some (nm, k)
    | _ => none

/-- Arguments of all `set_active_adapters` calls. -/
def setActiveCalls (st : InitState) : List (List String) :=
  st.actions.filterMap fun a =>
    match a with
    | ModelAction.setActiveAdapters l => some l
    | _ => none

/-- The set of active adapters after `__init__`: the argument of the last
`set_active_adapters` call, if any. -/
def activeAdapters (st : InitState) : Option (List String) :=
  (setActiveCalls st).getLast?

/-- Arguments of all `train_adapter` calls. -/
def trainCalls (st : InitState) : List (List String) :=
  st.actions.filterMap fun a =>
    match a with
    | ModelAction.trainAdapter l => some l
    | _ => none

/-- The label count of the tagging head attached during `__init__`, if one was. -/
def headLabels (st : InitState) : Option Nat :=
  ((taggingHeadCalls st).head?).map Prod.snd

/-- Whether a run of `__init__` ended in a raised `AssertionError`. -/
def isAssertionError (r : Except PyError InitState) : Bool :=
  match r with
  | Except.error PyError.assertionError => true
  | _ => false

/-- A 2-D integer tensor (token-id / logits shaped data). -/
abbrev Tensor := List (List Int)

/-- The keyword arguments accepted by `NERAdapterModel.forward`. -/
structure ForwardArgs where
  input_ids : Option Tensor
  attention_mask : Option Tensor
  token_type_ids : Option Tensor
  position_ids : Option Tensor
  head_mask : Option Tensor
  inputs_embeds : Option Tensor
  labels : Option Tensor
  output_attentions : Option Bool
  output_hidden_states : Option Bool
  return_dict : Option Bool
deriving DecidableEq, Repr

/-- The argument record received by the underlying model's call in `forward`.
The underlying model's signature also accepts `labels` (defaulting to `None`),
so the record has a `labels` slot even though the wrapper's call site does not
mention it. -/
structure UnderlyingCall where
  input_ids : Option Tensor
  attention_mask : Option Tensor
  token_type_ids : Option Tensor
  position_ids : Option Tensor
  head_mask : Option Tensor
  inputs_embeds : Option Tensor
  labels : Option Tensor
  output_attentions : Option Bool
  output_hidden_states : Option Bool
  return_dict : Option Bool
deriving DecidableEq, Repr

/-- `ForwardArgs` with every argument left at its default `None`. -/
def noArgs : ForwardArgs :=
  { input_ids := none, attention_mask := none, token_type_ids := none,
    position_ids := none, head_mask := none, inputs_embeds := none,
    labels := none, output_attentions := none, output_hidden_states := none,
    return_dict := none }

/-- The call `forward` makes on `self.model`: `return_dict` is defaulted from
`self.config.use_return_dict`, every other argument is forwarded verbatim —
except `labels`, which the call site omits, so the underlying model sees its
default `None`. -/
def nerForwardCall (use_return_dict : Bool) (args : ForwardArgs) : UnderlyingCall :=
  let rd : Bool :=
    match args.return_dict with
    | some b => b
    | none => use_return_dict
  { input_ids := args.input_ids
    attention_mask := args.attention_mask
    token_type_ids := args.token_type_ids
    position_ids := args.position_ids
    head_mask := args.head_mask
    inputs_embeds := args.inputs_embeds
    labels := none
    output_attentions := args.output_attentions
    output_hidden_states := args.output_hidden_states
    return_dict := some rd }

/-- Embedding of `NERAdapterModel.forward`: call the underlying model (abstracted
as a function from the call record to a string-keyed output dict) and return
`outputs["logits"]` (`none` models a `KeyError`). -/
def nerForward (model : UnderlyingCall → List (String × Tensor))
    (use_return_dict : Bool) (args : ForwardArgs) : Option Tensor :=
  (model (nerForwardCall use_return_dict args)).lookup "logits"

/-- One filesystem / library effect of `NERAdapterModel.save_pretrained`. -/
inductive SaveAction where
  | makedirs (dir : String)
  | saveConfig (dir : String)
  | saveAdapter (dir : String) (name : String) (with_head : Bool)
deriving DecidableEq, Repr

/-- `f"{path}/{self.config.lang}"`. -/
def saveDir (path lang : String) : String := path ++ "/" ++ lang

/-- Embedding of `NERAdapterModel.save_pretrained` as the list of effects it
performs; `dirExists` is the result of the `os.path.exists` check. -/
def nerSavePretrained (lang path : String) (dirExists : Bool) : List SaveAction :=
  (if dirExists then [] else [SaveAction.makedirs (saveDir path lang)])
    ++ [SaveAction.saveConfig (saveDir path lang),
        SaveAction.saveAdapter (saveDir path lang) (taskName lang) true]

/-- A dict value in `dummy_inputs`: an integer tensor or a boolean tensor. -/
inductive TVal where
  | intT (t : List (List Int))
  | boolT (t : List (List Bool))
deriving DecidableEq, Repr

/-- The literal `input_ids` tensor built by `dummy_inputs`. -/
def dummyInputIds (pad_token : Int) : List (List Int) :=
  [[0, 6, 10, 4, 2], [0, 8, 12, 2, pad_token]]

/-- Elementwise `t.ne(v)`. -/
def tensorNe (t : List (List Int)) (v : Int) : List (List Bool) :=
  t.map fun row => row.map fun x => decide (x ≠ v)

/-- Embedding of `NERAdapterPreTrainedModel.dummy_inputs`: the dict it returns,
as an association list in insertion order. -/
def dummy_inputs (pad_token_id : Int) : List (String × TVal) :=
  [("attention_mask", TVal.boolT (tensorNe (dummyInputIds pad_token_id) pad_token_id)),
   ("input_ids", TVal.intT (dummyInputIds pad_token_id)),
   ("decoder_input_ids", TVal.intT (dummyInputIds pad_token_id))]

/-- `t` is shaped with last dimension `n`: every row has length `n`. -/
def lastDimIs (t : Tensor) (n : Nat) : Prop :=
  ∀ row ∈ t, row.length = n

/-! ### Helper lemmas -/

lemma badModelMsg_ne_empty (s : String) : badModelMsg s ≠ "" := by
  intro h
  have h2 := congrArg String.length h
  rw [badModelMsg, String.length_append, String.length_append] at h2
  have h3 : (0 : Nat) <
      ("parameter `model` for NERAdapterModel must be either ['mbert', 'xlm-r'], " : String).length := by
    decide
  have h4 : ("" : String).length = 0 := by decide
  omega

lemma unknownModeMsg_ne_empty (m : Nat) : unknownModeMsg m ≠ "" := by
  intro h
  have h2 := congrArg String.length h
  rw [unknownModeMsg, String.length_append] at h2
  have h3 : (0 : Nat) < ("Unknown adapter mode of " : String).length := by decide
  have h4 : ("" : String).length = 0 := by decide
  omega

lemma pyAssert_badModelMsg (s : String) : pyAssert (badModelMsg s) = Except.ok () := by
  rw [pyAssert, if_neg (badModelMsg_ne_empty s)]

lemma pyAssert_unknownModeMsg (m : Nat) : pyAssert (unknownModeMsg m) = Except.ok () := by
  rw [pyAssert, if_neg (unknownModeMsg_ne_empty m)]

lemma taskName_ne (lang : String) : taskName lang ≠ lang := by
  intro h
  have h2 := congrArg String.length h
  rw [taskName, String.length_append] at h2
  have h3 : (0 : Nat) < ("_ner" : String).length := by decide
  omega

lemma lang_ne_taskName (lang : String) : lang ≠ taskName lang :=
  fun h => taskName_ne lang h.symm

/-- `initAdapters` never raises; its result state in closed form. -/
lemma initAdapters_eq (config : NERAdapterConfig) (bc : BaseModelClass) :
    initAdapters config bc = Except.ok
      { baseClass := bc
        pretrainedSrc :=
          if config.pretrained_ck = "" then none else some config.pretrained_ck
        adapter_mode := if config.lang_adapter_ckpt = "" then 1 else 2
        actions :=
          (if config.lang_adapter_ckpt = "" then []
           else [ModelAction.loadAdapter config.lang_adapter_ckpt config.lang [11]])
          ++ (if config.task_adapter_ckpt = "" then
                [ModelAction.addAdapter (taskName config.lang) pfeifferTaskConfig,
                 ModelAction.addTaggingHead (taskName config.lang) config.num_labels]
              else
                [ModelAction.loadAdapter config.task_adapter_ckpt (taskName config.lang) [11]])
          ++ (if config.lang_adapter_ckpt = "" then
                [ModelAction.setActiveAdapters [taskName config.lang]]
              else
                [ModelAction.setActiveAdapters [config.lang, taskName config.lang]])
          ++ [ModelAction.trainAdapter [taskName config.lang]] } := by
  by_cases hl : config.lang_adapter_ckpt = "" <;> simp [initAdapters, hl]

/-- Case analysis of a successful `__init__`. -/
lemma nerAdapterInit_ok_cases (config : NERAdapterConfig) (st : InitState)
    (h : nerAdapterInit config = Except.ok st) :
    (config.model ∈ (["mbert", "mbert_cased"] : List String)
      ∧ initAdapters config BaseModelClass.bertAdapterModel = Except.ok st)
    ∨ (config.model ∉ (["mbert", "mbert_cased"] : List String)
      ∧ config.model = "xlm-r"
      ∧ initAdapters config BaseModelClass.xlmRobertaAdapterModel = Except.ok st) := by
  by_cases hm : config.model ∈ (["mbert", "mbert_cased"] : List String)
  · rw [nerAdapterInit, if_pos hm] at h
    exact Or.inl ⟨hm, h⟩
  · by_cases hx : config.model = "xlm-r"
    · rw [nerAdapterInit, if_neg hm, if_pos hx] at h
      exact Or.inr ⟨hm, hx, h⟩
    · rw [nerAdapterInit, if_neg hm, if_neg hx, pyAssert_badModelMsg] at h
      exact Except.noConfusion h

/-- Closed form of the state produced by a successful `__init__`. -/
lemma nerAdapterInit_ok_state (config : NERAdapterConfig) (st : InitState)
    (h : nerAdapterInit config = Except.ok st) :
    st.adapter_mode = (if config.lang_adapter_ckpt = "" then 1 else 2)
    ∧ st.actions =
      (if config.lang_adapter_ckpt = "" then []
       else [ModelAction.loadAdapter config.lang_adapter_ckpt config.lang [11]])
      ++ (if config.task_adapter_ckpt = "" then
            [ModelAction.addAdapter (taskName config.lang) pfeifferTaskConfig,
             ModelAction.addTaggingHead (taskName config.lang) config.num_labels]
          else
            [ModelAction.loadAdapter config.task_adapter_ckpt (taskName config.lang) [11]])
      ++ (if config.lang_adapter_ckpt = "" then
            [ModelAction.setActiveAdapters [taskName config.lang]]
          else
            [ModelAction.setActiveAdapters [config.lang, taskName config.lang]])
      ++ [ModelAction.trainAdapter [taskName config.lang]] := by
  rcases nerAdapterInit_ok_cases config st h with ⟨_, hi⟩ | ⟨_, _, hi⟩ <;>
    · rw [initAdapters_eq] at hi
      injection hi with hi
      subst hi
      exact ⟨rfl, rfl⟩

/-- C1: if `lang_adapter_ckpt` is non-empty, the language adapter is loaded as
`config.lang` and the active adapters are exactly `[lang, lang_ner]`; if it is
empty, no adapter is loaded under `config.lang` and only `lang_ner` is active. -/
theorem ner_init_lang_adapter_activation (config : NERAdapterConfig) (st : InitState)
    (h : nerAdapterInit config = Except.ok st) :
    (config.lang_adapter_ckpt = "" →
      loadsAs st config.lang = []
      ∧ activeAdapters st = some [taskName config.lang])
    ∧ (config.lang_adapter_ckpt ≠ "" →
      loadsAs st config.lang = [config.lang_adapter_ckpt]
      ∧ activeAdapters st = some [config.lang, taskName config.lang]) := by
  obtain ⟨_, hacts⟩ := nerAdapterInit_ok_state config st h
  constructor <;> intro hl <;>
    by_cases ht : config.task_adapter_ckpt = "" <;>
      simp [loadsAs, activeAdapters, setActiveCalls, hacts, hl, ht, taskName_ne]

/-- C4: if `task_adapter_ckpt` is non-empty the task adapter is loaded from it
as `f"{lang}_ner"`; if it is empty a new pfeiffer task adapter named
`f"{lang}_ner"` is added and a tagging head with `config.num_labels` labels is
attached. -/
theorem ner_init_task_adapter (config : NERAdapterConfig) (st : InitState)
    (h : nerAdapterInit config = Except.ok st) :
    (config.task_adapter_ckpt = "" →
      addAdapterCalls st = [(taskName config.lang, pfeifferTaskConfig)]
      ∧ taggingHeadCalls st = [(taskName config.lang, config.num_labels)]
      ∧ loadsAs st (taskName config.lang) = [])
    ∧ (config.task_adapter_ckpt ≠ "" →
      loadsAs st (taskName config.lang) = [config.task_adapter_ckpt]
      ∧ addAdapterCalls st = []
      ∧ taggingHeadCalls st = []) := by
  obtain ⟨_, hacts⟩ := nerAdapterInit_ok_state config st h
  constructor <;> intro ht <;>
    by_cases hl : config.lang_adapter_ckpt = "" <;>
      simp [addAdapterCalls, taggingHeadCalls, loadsAs, hacts, hl, ht, lang_ne_taskName]

/-- C7: `train_adapter` is called exactly once, with exactly the single task
adapter name `f"{lang}_ner"`, whether or not a language adapter was loaded. -/
theorem ner_init_train_adapter (config : NERAdapterConfig) (st : InitState)
    (h : nerAdapterInit config = Except.ok st) :
    trainCalls st = [[taskName config.lang]] := by
  obtain ⟨_, hacts⟩ := nerAdapterInit_ok_state config st h
  by_cases hl : config.lang_adapter_ckpt = "" <;>
    by_cases ht : config.task_adapter_ckpt = "" <;>
      simp [trainCalls, hacts, hl, ht]

/-- C9: after the language-adapter conditional, `adapter_mode` is exactly 1 or
2 (1 iff `lang_adapter_ckpt` is empty), so the final `else` branch is never
taken and exactly one `set_active_adapters` call happens. -/
theorem ner_init_adapter_mode (config : NERAdapterConfig) (st : InitState)
    (h : nerAdapterInit config = Except.ok st) :
    (st.adapter_mode = 1 ∨ st.adapter_mode = 2)
    ∧ (st.adapter_mode = 1 ↔ config.lang_adapter_ckpt = "")
    ∧ (setActiveCalls st).length = 1 := by
  obtain ⟨hmode, hacts⟩ := nerAdapterInit_ok_state config st h
  by_cases hl : config.lang_adapter_ckpt = "" <;>
    by_cases ht : config.task_adapter_ckpt = "" <;>
      simp [setActiveCalls, hacts, hmode, hl, ht]

/-- C3: the `assert f"..."` statements in `__init__` assert non-empty strings
and therefore never raise `AssertionError`, for any configuration (including
invalid model tags) and any adapter-mode value. -/
theorem ner_init_asserts_never_raise (config : NERAdapterConfig) (m : Nat) :
    isAssertionError (nerAdapterInit config) = false
    ∧ pyAssert (badModelMsg config.model) = Except.ok ()
    ∧ pyAssert (unknownModeMsg m) = Except.ok () := by
  refine ⟨?_, pyAssert_badModelMsg _, pyAssert_unknownModeMsg _⟩
  by_cases hm : config.model ∈ (["mbert", "mbert_cased"] : List String)
  · rw [nerAdapterInit, if_pos hm, initAdapters_eq]
    rfl
  · by_cases hx : config.model = "xlm-r"
    · rw [nerAdapterInit, if_neg hm, if_pos hx, initAdapters_eq]
      rfl
    · rw [nerAdapterInit, if_neg hm, if_neg hx, pyAssert_badModelMsg]
      rfl

/-- C5: the model tag selects the base class: `"mbert"` and `"mbert_cased"`
give `BertAdapterModel`, `"xlm-r"` gives `XLMRobertaAdapterModel`, and any
other tag leaves `basemodel_class` unbound, so construction fails with
`UnboundLocalError`. -/
theorem ner_init_base_class (config : NERAdapterConfig) :
    (config.model ∈ (["mbert", "mbert_cased"] : List String) →
      ∀ st, nerAdapterInit config = Except.ok st →
        st.baseClass = BaseModelClass.bertAdapterModel)
    ∧ (config.model = "xlm-r" →
      ∀ st, nerAdapterInit config = Except.ok st →
        st.baseClass = BaseModelClass.xlmRobertaAdapterModel)
    ∧ (config.model ∉ (["mbert", "mbert_cased", "xlm-r"] : List String) →
      nerAdapterInit config = Except.error PyError.unboundLocalError) := by
  refine ⟨?_, ?_, ?_⟩
  · intro hm st h
    rw [nerAdapterInit, if_pos hm, initAdapters_eq] at h
    injection h with h
    rw [← h]
  · intro hx st h
    by_cases hm : config.model ∈ (["mbert", "mbert_cased"] : List String)
    · rw [hx] at hm
      simp at hm
    · rw [nerAdapterInit, if_neg hm, if_pos hx, initAdapters_eq] at h
      injection h with h
      rw [← h]
  · intro hall
    have hm : config.model ∉ (["mbert", "mbert_cased"] : List String) := by
      intro hc
      exact hall (by simp at hc ⊢; tauto)
    have hx : config.model ≠ "xlm-r" := by
      intro hc
      exact hall (by simp [hc])
    rw [nerAdapterInit, if_neg hm, if_neg hx, pyAssert_badModelMsg]

/-- A forward call passing only `labels`. -/
def argsLabeled : ForwardArgs := { noArgs with labels := some [[7]] }

/-- C2 counterexample: `forward` does NOT pass `labels` through to the
underlying model — the call it builds has `labels = None` even when the
caller supplied `labels`. -/
theorem ner_forward_labels_not_passed_cex :
    (nerForwardCall false argsLabeled).labels = none
    ∧ argsLabeled.labels = some [[7]] :=
  ⟨rfl, rfl⟩

/-- C2 amended: `forward` delegates every tensor argument except `labels` to
the underlying model (`labels` is accepted but dropped, so the underlying
model sees `None`), defaults `return_dict` from the config, and returns
exactly `outputs["logits"]`. -/
theorem ner_forward_delegation (model : UnderlyingCall → List (String × Tensor))
    (use_return_dict : Bool) (args : ForwardArgs) :
    nerForward model use_return_dict args
      = (model (nerForwardCall use_return_dict args)).lookup "logits"
    ∧ (nerForwardCall use_return_dict args).input_ids = args.input_ids
    ∧ (nerForwardCall use_return_dict args).attention_mask = args.attention_mask
    ∧ (nerForwardCall use_return_dict args).token_type_ids = args.token_type_ids
    ∧ (nerForwardCall use_return_dict args).position_ids = args.position_ids
    ∧ (nerForwardCall use_return_dict args).head_mask = args.head_mask
    ∧ (nerForwardCall use_return_dict args).inputs_embeds = args.inputs_embeds
    ∧ (nerForwardCall use_return_dict args).output_attentions = args.output_attentions
    ∧ (nerForwardCall use_return_dict args).output_hidden_states
        = args.output_hidden_states
    ∧ (nerForwardCall use_return_dict args).labels = none
    ∧ (nerForwardCall use_return_dict args).return_dict
        = some (args.return_dict.getD use_return_dict) := by
  refine ⟨rfl, rfl, rfl, rfl, rfl, rfl, rfl, rfl, rfl, rfl, ?_⟩
  cases hr : args.return_dict <;> simp [nerForwardCall, hr]

/-- C6: with an empty `task_adapter_ckpt` the tagging head is attached with
exactly `config.num_labels` labels, so whenever the underlying model produces
logits sized to the attached head, `forward` returns logits whose last
dimension is `config.num_labels`. -/
theorem ner_forward_logits_dim (config : NERAdapterConfig) (st : InitState)
    (model : UnderlyingCall → List (String × Tensor)) (use_rd : Bool)
    (args : ForwardArgs)
    (h : nerAdapterInit config = Except.ok st)
    (htask : config.task_adapter_ckpt = "")
    (hmodel : ∀ c logits, (model c).lookup "logits" = some logits →
      ∀ k, headLabels st = some k → lastDimIs logits k) :
    headLabels st = some config.num_labels
    ∧ (∀ logits, nerForward model use_rd args = some logits →
        lastDimIs logits config.num_labels) := by
  have hhead : headLabels st = some config.num_labels := by
    obtain ⟨_, hacts⟩ := nerAdapterInit_ok_state config st h
    by_cases hl : config.lang_adapter_ckpt = "" <;>
      simp [headLabels, taggingHeadCalls, hacts, hl, htask]
  refine ⟨hhead, fun logits hl2 => ?_⟩
  rw [nerForward] at hl2
  exact hmodel _ logits hl2 _ hhead

/-- C8: `save_pretrained` works under `f"{path}/{lang}"`: it creates that
directory iff it does not already exist, then saves the underlying model's
config there and saves the adapter `f"{lang}_ner"` there with its head. -/
theorem ner_save_pretrained_spec (lang path : String) (dirExists : Bool) :
    (dirExists = false →
      nerSavePretrained lang path dirExists
        = [SaveAction.makedirs (saveDir path lang),
           SaveAction.saveConfig (saveDir path lang),
           SaveAction.saveAdapter (saveDir path lang) (taskName lang) true])
    ∧ (dirExists = true →
      nerSavePretrained lang path dirExists
        = [SaveAction.saveConfig (saveDir path lang),
           SaveAction.saveAdapter (saveDir path lang) (taskName lang) true]) := by
  constructor <;> intro h <;> subst h <;> rfl

lemma tensorNe_get (t : List (List Int)) (v : Int) (i j : Nat) :
    ((tensorNe t v)[i]?).bind (fun row => row[j]?)
      = ((t[i]?.bind fun row => row[j]?).map fun x => decide (x ≠ v)) := by
  rw [tensorNe, List.getElem?_map]
  cases t[i]? with
  | none => rfl
  | some row => simp [List.getElem?_map]

/-- C10: `dummy_inputs` returns a dict with exactly the keys
`attention_mask`, `input_ids`, `decoder_input_ids`; `decoder_input_ids` is the
same tensor as `input_ids`, and `attention_mask` is, elementwise, the
predicate `input_ids != pad_token_id`. -/
theorem ner_dummy_inputs_spec (pad : Int) :
    (dummy_inputs pad).map Prod.fst
      = ["attention_mask", "input_ids", "decoder_input_ids"]
    ∧ (dummy_inputs pad).lookup "decoder_input_ids"
      = (dummy_inputs pad).lookup "input_ids"
    ∧ (dummy_inputs pad).lookup "input_ids" = some (TVal.intT (dummyInputIds pad))
    ∧ (dummy_inputs pad).lookup "attention_mask"
      = some (TVal.boolT (tensorNe (dummyInputIds pad) pad))
    ∧ (∀ i j : Nat,
        ((tensorNe (dummyInputIds pad) pad)[i]?).bind (fun row => row[j]?)
          = ((dummyInputIds pad)[i]?.bind (fun row => row[j]?)).map
              (fun x => decide (x ≠ pad))) :=
  ⟨rfl, rfl, rfl, rfl, fun i j => tensorNe_get (dummyInputIds pad) pad i j⟩

/-! ### Concrete instances -/

/-- A config with no checkpoints (fresh task adapter, single-adapter mode). -/
def cfgModeOne : NERAdapterConfig :=
  { model := "xlm-r", pretrained_ck := "", lang_adapter_ckpt := "",
    task_adapter_ckpt := "", lang := "vi", num_labels := 3,
    pad_token_id := 1, use_return_dict := true }

/-- The state `__init__` produces on `cfgModeOne`. -/
def stModeOne : InitState :=
  { baseClass := BaseModelClass.xlmRobertaAdapterModel
    pretrainedSrc := none
    adapter_mode := 1
    actions := [ModelAction.addAdapter "vi_ner" pfeifferTaskConfig,
                ModelAction.addTaggingHead "vi_ner" 3,
                ModelAction.setActiveAdapters ["vi_ner"],
                ModelAction.trainAdapter ["vi_ner"]] }

/-- A config with both checkpoints set (two-adapter mode, loaded task adapter). -/
def cfgModeTwo : NERAdapterConfig :=
  { model := "mbert", pretrained_ck := "pre.ckpt", lang_adapter_ckpt := "la.ckpt",
    task_adapter_ckpt := "ta.ckpt", lang := "vi", num_labels := 5,
    pad_token_id := 0, use_return_dict := false }

/-- The state `__init__` produces on `cfgModeTwo`. -/
def stModeTwo : InitState :=
  { baseClass := BaseModelClass.bertAdapterModel
    pretrainedSrc := some "pre.ckpt"
    adapter_mode := 2
    actions := [ModelAction.loadAdapter "la.ckpt" "vi" [11],
                ModelAction.loadAdapter "ta.ckpt" "vi_ner" [11],
                ModelAction.setActiveAdapters ["vi", "vi_ner"],
                ModelAction.trainAdapter ["vi_ner"]] }

/-- A config with an unrecognised model tag. -/
def cfgBadModel : NERAdapterConfig :=
  { model := "gpt2", pretrained_ck := "", lang_adapter_ckpt := "",
    task_adapter_ckpt := "", lang := "vi", num_labels := 3,
    pad_token_id := 1, use_return_dict := true }

/-! ### Witnesses -/

/-- C1 witness, at `cfgModeTwo` (both-adapter case) and `cfgModeOne`
(task-adapter-only case). -/
theorem ner_init_lang_adapter_activation_witness :
    (loadsAs stModeTwo "vi" = ["la.ckpt"]
      ∧ activeAdapters stModeTwo = some ["vi", "vi_ner"])
    ∧ (loadsAs stModeOne "vi" = []
      ∧ activeAdapters stModeOne = some ["vi_ner"]) :=
  ⟨(ner_init_lang_adapter_activation cfgModeTwo stModeTwo rfl).2 (by decide),
   (ner_init_lang_adapter_activation cfgModeOne stModeOne rfl).1 rfl⟩

/-- C4 witness, at `cfgModeOne` (fresh adapter + head) and `cfgModeTwo`
(loaded task adapter). -/
theorem ner_init_task_adapter_witness :
    (addAdapterCalls stModeOne = [("vi_ner", pfeifferTaskConfig)]
      ∧ taggingHeadCalls stModeOne = [("vi_ner", 3)]
      ∧ loadsAs stModeOne "vi_ner" = [])
    ∧ (loadsAs stModeTwo "vi_ner" = ["ta.ckpt"]
      ∧ addAdapterCalls stModeTwo = []
      ∧ taggingHeadCalls stModeTwo = []) :=
  ⟨(ner_init_task_adapter cfgModeOne stModeOne rfl).1 rfl,
   (ner_init_task_adapter cfgModeTwo stModeTwo rfl).2 (by decide)⟩

/-- C7 witness. -/
theorem ner_init_train_adapter_witness :
    trainCalls stModeOne = [["vi_ner"]] :=
  ner_init_train_adapter cfgModeOne stModeOne rfl

/-- C9 witness. -/
theorem ner_init_adapter_mode_witness :
    (stModeTwo.adapter_mode = 1 ∨ stModeTwo.adapter_mode = 2)
    ∧ (stModeTwo.adapter_mode = 1 ↔ cfgModeTwo.lang_adapter_ckpt = "")
    ∧ (setActiveCalls stModeTwo).length = 1 :=
  ner_init_adapter_mode cfgModeTwo stModeTwo rfl

/-- C5 witness: all three tag cases. -/
theorem ner_init_base_class_witness :
    stModeOne.baseClass = BaseModelClass.xlmRobertaAdapterModel
    ∧ stModeTwo.baseClass = BaseModelClass.bertAdapterModel
    ∧ nerAdapterInit cfgBadModel = Except.error PyError.unboundLocalError :=
  ⟨(ner_init_base_class cfgModeOne).2.1 rfl stModeOne rfl,
   (ner_init_base_class cfgModeTwo).1 (by decide) stModeTwo rfl,
   (ner_init_base_class cfgBadModel).2.2 (by decide)⟩

/-- C6 witness: an underlying model producing 3-wide logits for the 3-label
head attached on `cfgModeOne`. -/
theorem ner_forward_logits_dim_witness :
    headLabels stModeOne = some 3 :=
  (ner_forward_logits_dim cfgModeOne stModeOne
    (fun _ => [("logits", [[0, 0, 0]])]) true noArgs rfl rfl
    (by
      intro c logits hl k hk
      simp [List.lookup] at hl
      have h3 : headLabels stModeOne = some 3 := by decide
      rw [h3] at hk
      injection hk with hk
      subst hk
      subst hl
      intro row hr
      simp at hr
      subst hr
      rfl)).1

/-- C8 witness: both directory-existence cases at a concrete path. -/
theorem ner_save_pretrained_spec_witness :
    nerSavePretrained "vi" "out" false
      = [SaveAction.makedirs (saveDir "out" "vi"),
         SaveAction.saveConfig (saveDir "out" "vi"),
         SaveAction.saveAdapter (saveDir "out" "vi") (taskName "vi") true]
    ∧ nerSavePretrained "vi" "out" true
      = [SaveAction.saveConfig (saveDir "out" "vi"),
         SaveAction.saveAdapter (saveDir "out" "vi") (taskName "vi") true] :=
  ⟨(ner_save_pretrained_spec "vi" "out" false).1 rfl,
   (ner_save_pretrained_spec "vi" "out" true).2 rfl⟩
